import Mathlib

/-!
Verification of the core of the AI-based attendance system: the face
matcher (`FaceRecognitionHandler.recognize_face`), the per-track identity
cache and unknown-person logging in `VideoProcessor.process_frame`, the
cooldown timers of `AttendanceTracker`, the daily-attendance sync of
`DatabaseManager.sync_daily_attendance`, and the face-store removal
operation. Wall-clock timestamps (Python floats from `time.time()`) and
similarity scores are embedded as rationals; fallible I/O is embedded as
explicit oracle parameters; Python dicts (which iterate in insertion
order) are embedded as association lists with unique keys.
-/

namespace AttendanceSys

/-- A face registry as held in `registered_faces`
(src/core/face_recognition.py): a dict from person_id to
`{'name': name, 'encoding': encoding}`, embedded as an ordered list of
`(person_id, name, encoding)` triples; `α` is the encoding type. -/
abbrev Registry (α : Type) := List (String × String × α)

/-- One iteration of the loop in `FaceRecognitionHandler.recognize_face`:
the accumulator is `(max_similarity, recognized_id, recognized_name)`,
replaced by the current entry only when its similarity strictly exceeds
both the running maximum and the threshold. `sim` abstracts
`calculate_similarity` (cosine similarity of float vectors) as a
rational-valued function of the query and the stored encoding. -/
def matchStep {α : Type} (sim : α → α → ℚ) (threshold : ℚ) (q : α)
    (acc : ℚ × Option String × Option String) (e : String × String × α) :
    ℚ × Option String × Option String :=
  let similarity := sim q e.2.2
  if similarity > acc.1 ∧ similarity > threshold then
    (similarity, some e.1, some e.2.1)
  else acc

/-- Embedding of `FaceRecognitionHandler.recognize_face`
(src/core/face_recognition.py): empty registry returns
`(None, None, 0.0)`; otherwise the registry is scanned in iteration order
starting from `max_similarity = 0.0`, and the triple
`(recognized_id, recognized_name, max_similarity)` is returned. -/
def recognize_face {α : Type} (sim : α → α → ℚ) (threshold : ℚ)
    (registry : Registry α) (face_encoding : α) :
    Option String × Option String × ℚ :=
  if registry.length = 0 then (none, none, 0)
  else
    let acc := registry.foldl (matchStep sim threshold face_encoding)
      ((0 : ℚ), (none : Option String), (none : Option String))
    (acc.2.1, acc.2.2, acc.1)

/-- The mutable per-feed state of `VideoProcessor`
(src/core/video_processor.py): the cache `tracker_id_to_person` binding a
track id to the recognized `(person_id, person_name)` pair, and the set
`logged_unknown_ids` of track ids already logged as unknown. The cached
name is the `recognized_name` component returned by `recognize_face`. -/
structure TrackState where
  tracker_id_to_person : Nat → Option (String × Option String)
  logged_unknown_ids : List Nat

/-- Embedding of `VideoProcessor.clear_cache`: forgets all track bindings
and all logged-unknown marks. -/
def clear_cache : TrackState :=
  { tracker_id_to_person := fun _ => none, logged_unknown_ids := [] }

/-- Per-tracked-detection data consumed by one iteration of the loop in
`VideoProcessor.process_frame`: the ByteTrack id; `best_face`, the
embedding of the detected face whose box has the greatest IoU overlap
with the track box when that IoU exceeds 0.5 (`none` when no detection
overlaps enough); and whether the clamped face crop is non-empty
(`face_crop.size > 0`). -/
structure DetInput (α : Type) where
  tracker_id : Nat
  best_face : Option α
  crop_nonempty : Bool

/-- State effect of one iteration of the per-detection loop in
`VideoProcessor.process_frame`. A track already in the cache keeps its
binding and triggers no recognition; a new track with an IoU-matched face
is recognized via `recog` (the handler's `recognize_face` applied to the
embedding) and bound on success; on failure the unknown-person branch
runs: when the callback is present, the track is not yet in
`logged_unknown_ids`, and the crop is non-empty, the snapshot is
submitted to the callback and the track is marked logged. The returned
flag records whether the unknown-person callback was invoked. -/
def processDetection {α : Type} (recog : α → Option String × Option String × ℚ)
    (has_unknown_cb : Bool) (s : TrackState) (d : DetInput α) :
    TrackState × Bool :=
  match s.tracker_id_to_person d.tracker_id with
  | some _ => (s, false)
  | none =>
    match d.best_face with
    | none => (s, false)
    | some emb =>
      match recog emb with
      | (some person_id, person_name, _) =>
        ({ s with tracker_id_to_person := fun t =>
            if t = d.tracker_id then some (person_id, person_name)
            else s.tracker_id_to_person t }, false)
      | (none, _, _) =>
        if has_unknown_cb ∧ d.tracker_id ∉ s.logged_unknown_ids then
          if d.crop_nonempty then
            ({ s with logged_unknown_ids := d.tracker_id :: s.logged_unknown_ids },
             true)
          else (s, false)
        else (s, false)

/-- State effect of `VideoProcessor.process_frame` over the frame's
tracked detections, processed in loop order. -/
def processFrame {α : Type} (recog : α → Option String × Option String × ℚ)
    (has_unknown_cb : Bool) (s : TrackState) (ds : List (DetInput α)) :
    TrackState :=
  ds.foldl (fun s d => (processDetection recog has_unknown_cb s d).1) s

/-- Number of unknown-person callback invocations attributed to track
`tid` while processing the detections `ds` in order from state `s`. The
list may span several frames, since the `VideoProcessor` state persists
across frames. -/
def unknownLogCount {α : Type} (recog : α → Option String × Option String × ℚ)
    (has_unknown_cb : Bool) (s : TrackState) (tid : Nat) :
    List (DetInput α) → Nat
  | [] => 0
  | d :: ds =>
    let r := processDetection recog has_unknown_cb s d
    (if r.2 && (d.tracker_id == tid) then 1 else 0) +
      unknownLogCount recog has_unknown_cb r.1 tid ds

/-- The mutable state of `AttendanceTracker`
(src/core/attendance_tracker.py): per-person timestamps of the last raw
detection log and of the last attendance sync, plus the single global
timestamp of the last unknown-person alert (initialized to 0). -/
structure TrackerState where
  last_log_time : String → Option ℚ
  last_attendance_time : String → Option ℚ
  last_unknown_alert_time : ℚ

/-- The initial `AttendanceTracker` state: both timer maps empty and
`last_unknown_alert_time = 0`. -/
def initTracker : TrackerState :=
  { last_log_time := fun _ => none
    last_attendance_time := fun _ => none
    last_unknown_alert_time := 0 }

/-- PART 1 of `AttendanceTracker.process_recognized_face` (raw logging):
the raw-detection log is written when the person was never raw-logged or
more than 90 seconds have elapsed since their last raw log, in which case
the person's `last_log_time` is reset to `current_ts`. Returns
(new state, raw log ran). -/
def rawLogPart (s : TrackerState) (current_ts : ℚ) (person_id : String) :
    TrackerState × Bool :=
  let rawDue :=
    match s.last_log_time person_id with
    | none => true
    | some t => decide (current_ts - t > 90)
  if rawDue then
    ({ s with last_log_time := fun p =>
        if p = person_id then some current_ts else s.last_log_time p },
     true)
  else (s, false)

/-- PART 2 of `AttendanceTracker.process_recognized_face` (attendance
logic): `sync_daily_attendance` is invoked when the person was never
synced or more than 5 seconds have elapsed since their last sync, in
which case the person's `last_attendance_time` is reset to `current_ts`.
Returns (new state, attendance sync ran). -/
def attendancePart (s : TrackerState) (current_ts : ℚ)
    (person_id : String) : TrackerState × Bool :=
  let syncDue :=
    match s.last_attendance_time person_id with
    | none => true
    | some t => decide (current_ts - t > 5)
  if syncDue then
    ({ s with last_attendance_time := fun p =>
        if p = person_id then some current_ts
        else s.last_attendance_time p },
     true)
  else (s, false)

/-- Embedding of `AttendanceTracker.process_recognized_face` restricted
to its state and write effects: the raw-logging part runs first, then the
attendance part on the resulting state. Returns
(new state, raw log ran, attendance sync ran). -/
def process_recognized_face (s : TrackerState) (current_ts : ℚ)
    (person_id : String) : TrackerState × Bool × Bool :=
  let r1 := rawLogPart s current_ts person_id
  let r2 := attendancePart r1.1 current_ts person_id
  (r2.1, r1.2, r2.2)

/-- Number of state-changing attendance syncs performed for `pid` while
running `process_recognized_face` over the `(timestamp, person_id)`
events in order from state `s`. -/
def syncCount (s : TrackerState) (pid : String) : List (ℚ × String) → Nat
  | [] => 0
  | e :: es =>
    let r := process_recognized_face s e.1 e.2
    (if r.2.2 && (e.2 == pid) then 1 else 0) + syncCount r.1 pid es

/-- Embedding of `AttendanceTracker.process_unknown_person`: the DB log
result `log_ok` (from `log_unknown_person`) is passed through, and the
audible alert is triggered only when more than 15 seconds have elapsed
since the single global `last_unknown_alert_time`, which is then reset.
Returns (new state, alert triggered, DB log result). -/
def process_unknown_person (s : TrackerState) (current_ts : ℚ)
    (log_ok : Bool) : TrackerState × Bool × Bool :=
  if current_ts - s.last_unknown_alert_time > 15 then
    ({ s with last_unknown_alert_time := current_ts }, true, log_ok)
  else (s, false, log_ok)

/-- Number of alerts triggered while running `process_unknown_person`
over the `(timestamp, DB log result)` events in order from state `s`;
the calls may come from arbitrarily many distinct unknown tracks, which
the source function does not distinguish. -/
def alertCount (s : TrackerState) : List (ℚ × Bool) → Nat
  | [] => 0
  | e :: es =>
    let r := process_unknown_person s e.1 e.2
    (if r.2.1 then 1 else 0) + alertCount r.1 es

/-- A row of the `persons` table, restricted to the columns read by
`sync_daily_attendance` (src/database/database.py). -/
structure PersonRow where
  person_id : String
  name : String
  shift_end : String

/-- A row of the `attendance` table. -/
structure AttendanceRow where
  person_id : String
  date : String
  arrival_time : String
  leaving_time : String
  status : String

/-- The relational store state visible to `sync_daily_attendance`. -/
structure DBState where
  persons : List PersonRow
  attendance : List AttendanceRow

/-- Embedding of the shift-end parse in `sync_daily_attendance`:
`int(user_shift_end_str.split(':')[0])` with fallback 18 when the parse
raises. -/
def parseShiftEndHour (s : String) : Nat :=
  match ((s.splitOn ":").headD "").toNat? with
  | some h => h
  | none => 18

/-- The wall-clock snapshot taken at the top of `sync_daily_attendance`:
`date.today().isoformat()`, `now.strftime('%H:%M:%S')`, and `now.hour`. -/
structure SyncClock where
  today : String
  current_time : String
  hour : Nat

/-- Where a `mysql.connector.Error` is raised during a sync, if anywhere.
`connectFail` is an error inside `get_connection()` or `conn.cursor()`,
which run before the `try:` block of `sync_daily_attendance`;
`queryFail` is an error raised by any execute/commit inside the `try:`
block, which the `except mysql.connector.Error` clause catches. -/
inductive SyncFault where
  | connectFail
  | queryFail
deriving DecidableEq

/-- Embedding of `DatabaseManager.sync_daily_attendance`. The result is
`Except.error` when an exception propagates to the caller and
`Except.ok (message, new store)` otherwise. Fault-free behavior: person
not found returns an error string; no attendance row for (person, today)
inserts one row with arrival = leaving = now and status Present and
returns a LOGIN message; an existing row has its leaving_time set to now
and the message is LOGOUT UPDATE when the current hour has reached the
person's parsed shift-end hour, Shift Ongoing otherwise. A caught query
fault leaves the uncommitted store unchanged and returns the
DB-Error-tagged string. -/
def sync_daily_attendance (person_id : String) (db : DBState)
    (clk : SyncClock) (fault : Option SyncFault) :
    Except String (String × DBState) :=
  match fault with
  | some SyncFault.connectFail =>
    Except.error "mysql.connector.Error: cannot connect"
  | some SyncFault.queryFail =>
    Except.ok ("DB Error: query failed", db)
  | none =>
    match db.persons.find? (fun p => p.person_id == person_id) with
    | none => Except.ok ("Error: Person not found", db)
    | some p =>
      let user_shift_end_hour := parseShiftEndHour p.shift_end
      match db.attendance.find?
          (fun a => a.person_id == person_id && a.date == clk.today) with
      | none =>
        Except.ok ("LOGIN: " ++ clk.current_time,
          { db with attendance := db.attendance ++
              [{ person_id := person_id, date := clk.today
                 arrival_time := clk.current_time
                 leaving_time := clk.current_time
                 status := "Present" }] })
      | some _ =>
        let att := db.attendance.map (fun a =>
          if a.person_id == person_id && a.date == clk.today then
            { a with leaving_time := clk.current_time }
          else a)
        if clk.hour ≥ user_shift_end_hour then
          Except.ok ("LOGOUT UPDATE: " ++ clk.current_time,
            { db with attendance := att })
        else
          Except.ok ("Shift Ongoing (Ends " ++ p.shift_end ++ ")",
            { db with attendance := att })

/-- Embedding of `FaceRecognitionHandler.save_face_encodings`: the
success of pickling the registry to disk is environmental, modelled by
the oracle `io_ok`; the except branch returns false. -/
def save_face_encodings (io_ok : Bool) : Bool := io_ok

/-- Embedding of `FaceRecognitionHandler.remove_face_encoding`: when the
person_id is a key of the in-memory registry, its entry is deleted and
the result of `save_face_encodings` is returned; otherwise the registry
is unchanged and false is returned. Returns (new registry, result). -/
def remove_face_encoding {α : Type} (registered_faces : Registry α)
    (person_id : String) (io_ok : Bool) : Registry α × Bool :=
  if registered_faces.any (fun e => e.1 == person_id) then
    (registered_faces.filter (fun e => !(e.1 == person_id)),
     save_face_encodings io_ok)
  else (registered_faces, false)

/-! Theorems. First the matcher (claims C4, C10). -/

/-- Characterization of the selection fold of `recognize_face`: either no
entry was accepted and the accumulator is returned unchanged, or the
result comes from some entry whose similarity strictly exceeds the
threshold, the initial running maximum, and the similarity of every
entry iterated before it. -/
theorem matchFold_spec {α : Type} (sim : α → α → ℚ) (th : ℚ) (q : α) :
    ∀ (l : Registry α) (acc : ℚ × Option String × Option String),
      l.foldl (matchStep sim th q) acc = acc ∨
      ∃ pre e post, l = pre ++ e :: post ∧
        l.foldl (matchStep sim th q) acc = (sim q e.2.2, some e.1, some e.2.1) ∧
        sim q e.2.2 > th ∧ sim q e.2.2 > acc.1 ∧
        ∀ x ∈ pre, sim q x.2.2 < sim q e.2.2 := by
  intro l
  induction l with
  | nil =>
    intro acc
    left
    rfl
  | cons e t ih =>
    intro acc
    rw [List.foldl_cons]
    by_cases hcond : sim q e.2.2 > acc.1 ∧ sim q e.2.2 > th
    · have hstep : matchStep sim th q acc e = (sim q e.2.2, some e.1, some e.2.1) := by
        simp only [matchStep]
        rw [if_pos hcond]
      rw [hstep]
      rcases ih (sim q e.2.2, some e.1, some e.2.1) with hsame |
        ⟨pre, e2, post, hsplit, hres, hth, hgt, hpre⟩
      · right
        refine ⟨[], e, t, rfl, ?_, hcond.2, hcond.1, ?_⟩
        · rw [hsame]
        · intro x hx
          exact absurd hx (List.not_mem_nil x)
      · right
        have hgt2 : sim q e.2.2 < sim q e2.2.2 := hgt
        refine ⟨e :: pre, e2, post, by rw [hsplit, List.cons_append], hres, hth,
          lt_trans hcond.1 hgt2, ?_⟩
        intro x hx
        rcases List.mem_cons.mp hx with hx | hx
        · rw [hx]
          exact hgt2
        · exact hpre x hx
    · have hstep : matchStep sim th q acc e = acc := by
        simp only [matchStep]
        rw [if_neg hcond]
      rw [hstep]
      rcases ih acc with hsame | ⟨pre, e2, post, hsplit, hres, hth, hgt, hpre⟩
      · left
        exact hsame
      · right
        refine ⟨e :: pre, e2, post, by rw [hsplit, List.cons_append], hres, hth, hgt, ?_⟩
        intro x hx
        rcases List.mem_cons.mp hx with hx | hx
        · rw [hx]
          rcases not_and_or.mp hcond with h1 | h1
          · exact lt_of_le_of_lt (not_lt.mp h1) hgt
          · exact lt_of_le_of_lt (not_lt.mp h1) hth
        · exact hpre x hx

/-- C4: `recognize_face` returns a person_id only for a registry entry
whose similarity strictly exceeds the configured threshold and strictly
exceeds the similarity of every entry iterated before it (so on an exact
tie the first-seen entry wins), and the empty registry yields
(none, none, 0.0). -/
theorem C4_best_match_policy {α : Type} (sim : α → α → ℚ) (th : ℚ) (q : α) :
    recognize_face sim th ([] : Registry α) q = (none, none, 0) ∧
    ∀ (registry : Registry α) (pid : String),
      (recognize_face sim th registry q).1 = some pid →
      ∃ pre e post, registry = pre ++ e :: post ∧ e.1 = pid ∧
        sim q e.2.2 > th ∧
        ∀ x ∈ pre, sim q x.2.2 < sim q e.2.2 := by
  constructor
  · rfl
  · intro registry pid h
    by_cases hlen : registry.length = 0
    · simp only [recognize_face, if_pos hlen] at h
      cases h
    · simp only [recognize_face, if_neg hlen] at h
      rcases matchFold_spec sim th q registry (0, none, none) with hsame |
        ⟨pre, e, post, hsplit, hres, hth, _, hpre⟩
      · rw [hsame] at h
        cases h
      · rw [hres] at h
        have hpid : e.1 = pid := by
          simpa using h
        exact ⟨pre, e, post, hsplit, hpid, hth, hpre⟩

/-- Closed instance of C4 at a concrete registry and similarity
function. -/
theorem C4_best_match_policy_witness :
    (recognize_face (fun (_ : ℚ) (b : ℚ) => b) (1 : ℚ)
      [("p1", "Alice", (2 : ℚ))] 0).1 = some "p1" ∧
    ∃ pre e post,
      ([("p1", "Alice", (2 : ℚ))] : Registry ℚ) = pre ++ e :: post ∧
      e.1 = "p1" ∧
      (fun (_ : ℚ) (b : ℚ) => b) 0 e.2.2 > (1 : ℚ) ∧
      ∀ x ∈ pre,
        (fun (_ : ℚ) (b : ℚ) => b) 0 x.2.2 <
          (fun (_ : ℚ) (b : ℚ) => b) 0 e.2.2 :=
  ⟨by decide,
   (C4_best_match_policy (fun (_ : ℚ) (b : ℚ) => b) (1 : ℚ) 0).2
     [("p1", "Alice", (2 : ℚ))] "p1" (by decide)⟩

/-- When no entry beats the threshold, the fold never replaces the
accumulator. -/
theorem matchFold_below_threshold {α : Type} (sim : α → α → ℚ) (th : ℚ)
    (q : α) :
    ∀ (l : Registry α) (acc : ℚ × Option String × Option String),
      (∀ x ∈ l, ¬ sim q x.2.2 > th) →
      l.foldl (matchStep sim th q) acc = acc := by
  intro l
  induction l with
  | nil =>
    intro acc _
    rfl
  | cons e t ih =>
    intro acc hall
    rw [List.foldl_cons]
    have hstep : matchStep sim th q acc e = acc := by
      simp only [matchStep]
      rw [if_neg]
      intro hc
      exact hall e (List.mem_cons_self e t) hc.2
    rw [hstep]
    exact ih acc (fun x hx => hall x (List.mem_cons_of_mem e hx))

/-- C10: on a non-empty registry in which no entry's similarity strictly
exceeds the threshold, `recognize_face` returns exactly
(none, none, 0.0) — the score does not reveal the best below-threshold
similarity. -/
theorem C10_no_match_returns_zero {α : Type} (sim : α → α → ℚ) (th : ℚ)
    (q : α) (registry : Registry α) (hne : registry ≠ [])
    (hall : ∀ x ∈ registry, ¬ sim q x.2.2 > th) :
    recognize_face sim th registry q = (none, none, 0) := by
  have hlen : ¬ registry.length = 0 := by
    intro h
    exact hne (List.length_eq_zero.mp h)
  simp only [recognize_face, if_neg hlen]
  rw [matchFold_below_threshold sim th q registry _ hall]

/-- Closed instance of C10: a single entry whose similarity equals the
threshold (so does not strictly exceed it) yields (none, none, 0). -/
theorem C10_no_match_returns_zero_witness :
    recognize_face (fun (_ : ℚ) (b : ℚ) => b) (1 : ℚ)
      [("p1", "Alice", (1 : ℚ))] 0 = (none, none, 0) :=
  C10_no_match_returns_zero (fun (_ : ℚ) (b : ℚ) => b) (1 : ℚ) 0
    [("p1", "Alice", (1 : ℚ))] (by decide) (by decide)

/-! Per-track identity cache and unknown-person logging (claims C1, C6). -/

/-- One loop iteration never changes an existing cache binding. -/
theorem processDetection_preserves_binding {α : Type}
    (recog : α → Option String × Option String × ℚ) (cb : Bool)
    (s : TrackState) (d : DetInput α) (tid : Nat)
    (pn : String × Option String)
    (h : s.tracker_id_to_person tid = some pn) :
    (processDetection recog cb s d).1.tracker_id_to_person tid = some pn := by
  cases hc : s.tracker_id_to_person d.tracker_id with
  | some v =>
    simp only [processDetection, hc]
    exact h
  | none =>
    cases hb : d.best_face with
    | none =>
      simp only [processDetection, hc, hb]
      exact h
    | some emb =>
      rcases hr : recog emb with ⟨fst, nm, sc⟩
      cases fst with
      | some pid =>
        simp only [processDetection, hc, hb, hr]
        have hne : tid ≠ d.tracker_id := by
          intro he
          rw [he, hc] at h
          cases h
        rw [if_neg hne]
        exact h
      | none =>
        by_cases h1 : cb = true ∧ d.tracker_id ∉ s.logged_unknown_ids
        · simp only [processDetection, hc, hb, hr, if_pos h1]
          split
          · exact h
          · exact h
        · simp only [processDetection, hc, hb, hr, if_neg h1]
          exact h

/-- The set of already-logged-unknown track ids only grows. -/
theorem processDetection_logged_mono {α : Type}
    (recog : α → Option String × Option String × ℚ) (cb : Bool)
    (s : TrackState) (d : DetInput α) (tid : Nat)
    (h : tid ∈ s.logged_unknown_ids) :
    tid ∈ (processDetection recog cb s d).1.logged_unknown_ids := by
  cases hc : s.tracker_id_to_person d.tracker_id with
  | some v =>
    simp only [processDetection, hc]
    exact h
  | none =>
    cases hb : d.best_face with
    | none =>
      simp only [processDetection, hc, hb]
      exact h
    | some emb =>
      rcases hr : recog emb with ⟨fst, nm, sc⟩
      cases fst with
      | some pid =>
        simp only [processDetection, hc, hb, hr]
        exact h
      | none =>
        by_cases h1 : cb = true ∧ d.tracker_id ∉ s.logged_unknown_ids
        · simp only [processDetection, hc, hb, hr, if_pos h1]
          split
          · exact List.mem_cons_of_mem _ h
          · exact h
        · simp only [processDetection, hc, hb, hr, if_neg h1]
          exact h

/-- A detection for an already-logged track never re-invokes the
unknown-person callback. -/
theorem processDetection_no_relog {α : Type}
    (recog : α → Option String × Option String × ℚ) (cb : Bool)
    (s : TrackState) (d : DetInput α)
    (h : d.tracker_id ∈ s.logged_unknown_ids) :
    (processDetection recog cb s d).2 = false := by
  cases hc : s.tracker_id_to_person d.tracker_id with
  | some v =>
    simp only [processDetection, hc]
  | none =>
    cases hb : d.best_face with
    | none =>
      simp only [processDetection, hc, hb]
    | some emb =>
      rcases hr : recog emb with ⟨fst, nm, sc⟩
      cases fst with
      | some pid =>
        simp only [processDetection, hc, hb, hr]
      | none =>
        have h1 : ¬ (cb = true ∧ d.tracker_id ∉ s.logged_unknown_ids) := by
          intro h1
          exact h1.2 h
        simp only [processDetection, hc, hb, hr, if_neg h1]

/-- When the unknown-person callback fires for a detection, its track id
is marked logged in the resulting state. -/
theorem processDetection_logs_mark {α : Type}
    (recog : α → Option String × Option String × ℚ) (cb : Bool)
    (s : TrackState) (d : DetInput α)
    (h : (processDetection recog cb s d).2 = true) :
    d.tracker_id ∈ (processDetection recog cb s d).1.logged_unknown_ids := by
  cases hc : s.tracker_id_to_person d.tracker_id with
  | some v =>
    simp only [processDetection, hc] at h
    cases h
  | none =>
    cases hb : d.best_face with
    | none =>
      simp only [processDetection, hc, hb] at h
      cases h
    | some emb =>
      rcases hr : recog emb with ⟨fst, nm, sc⟩
      cases fst with
      | some pid =>
        simp only [processDetection, hc, hb, hr] at h
        cases h
      | none =>
        by_cases h1 : cb = true ∧ d.tracker_id ∉ s.logged_unknown_ids
        · simp only [processDetection, hc, hb, hr, if_pos h1] at h ⊢
          cases hcrop : d.crop_nonempty with
          | true =>
            simp
          | false =>
            rw [hcrop] at h
            simp at h
        · simp only [processDetection, hc, hb, hr, if_neg h1] at h
          cases h

/-- Once a track id is marked logged, no further detection sequence ever
invokes the unknown-person callback for it again. -/
theorem unknownLogCount_zero {α : Type}
    (recog : α → Option String × Option String × ℚ) (cb : Bool) (tid : Nat) :
    ∀ (ds : List (DetInput α)) (s : TrackState),
      tid ∈ s.logged_unknown_ids →
      unknownLogCount recog cb s tid ds = 0 := by
  intro ds
  induction ds with
  | nil =>
    intro s _
    rfl
  | cons d ds ih =>
    intro s h
    simp only [unknownLogCount]
    rw [ih _ (processDetection_logged_mono recog cb s d tid h)]
    by_cases hd : d.tracker_id = tid
    · have hflag : (processDetection recog cb s d).2 = false :=
        processDetection_no_relog recog cb s d (by rw [hd]; exact h)
      rw [hflag]
      rfl
    · have : (d.tracker_id == tid) = false := by
        simp [hd]
      rw [this, Bool.and_false]
      rfl

/-- C6: over any sequence of processed detections (spanning any number of
frames), the unknown-person callback is invoked at most once for a given
track id. -/
theorem C6_one_unknown_snapshot {α : Type}
    (recog : α → Option String × Option String × ℚ) (cb : Bool)
    (s : TrackState) (tid : Nat) (ds : List (DetInput α)) :
    unknownLogCount recog cb s tid ds ≤ 1 := by
  induction ds generalizing s with
  | nil => exact Nat.zero_le 1
  | cons d ds ih =>
    simp only [unknownLogCount]
    by_cases hflag : (processDetection recog cb s d).2 = true ∧ d.tracker_id = tid
    · have hmem : tid ∈ (processDetection recog cb s d).1.logged_unknown_ids := by
        rw [← hflag.2]
        exact processDetection_logs_mark recog cb s d hflag.1
      rw [unknownLogCount_zero recog cb tid ds _ hmem]
      rw [hflag.1, hflag.2]
      simp
    · have hzero :
          (if (processDetection recog cb s d).2 && (d.tracker_id == tid)
            then 1 else 0) = 0 := by
        rcases not_and_or.mp hflag with h1 | h1
        · rw [Bool.not_eq_true] at h1
          rw [h1, Bool.false_and]
          rfl
        · have : (d.tracker_id == tid) = false := by
            simp [h1]
          rw [this, Bool.and_false]
          rfl
      rw [hzero, Nat.zero_add]
      exact ih _

/-- C1: once a track id is bound in the per-track cache, processing any
further frames — with any recognition outcomes, including ones that
would now prefer a different person — never rebinds it; the binding
persists until the cache is explicitly cleared. -/
theorem C1_binding_stable {α : Type}
    (recog : α → Option String × Option String × ℚ) (cb : Bool)
    (s : TrackState) (ds : List (DetInput α)) (tid : Nat)
    (pn : String × Option String)
    (h : s.tracker_id_to_person tid = some pn) :
    (processFrame recog cb s ds).tracker_id_to_person tid = some pn := by
  induction ds generalizing s with
  | nil => exact h
  | cons d ds ih =>
    simp only [processFrame, List.foldl_cons]
    exact ih _ (processDetection_preserves_binding recog cb s d tid pn h)

/-- Closed instance of C1: a track bound to person p1 stays bound to p1
even though recognition now reports person p2 for its face. -/
theorem C1_binding_stable_witness :
    (processFrame (fun (_ : ℚ) => (some "p2", some "Bob", (9 : ℚ))) true
      { tracker_id_to_person := fun t =>
          if t = 1 then some ("p1", some "Alice") else none
        logged_unknown_ids := [] }
      [{ tracker_id := 1, best_face := some 0, crop_nonempty := true }]
      ).tracker_id_to_person 1 = some ("p1", some "Alice") :=
  C1_binding_stable (fun (_ : ℚ) => (some "p2", some "Bob", (9 : ℚ))) true
    _ _ 1 ("p1", some "Alice") rfl

/-! Cooldown timers of the attendance tracker (claims C5, C7). -/

/-- The raw-logging part never touches the attendance-sync timer map. -/
theorem rawLogPart_preserves (s : TrackerState) (t : ℚ) (q : String) :
    (rawLogPart s t q).1.last_attendance_time = s.last_attendance_time := by
  simp only [rawLogPart]
  split
  · rfl
  · rfl

/-- When the attendance part syncs, it records its timestamp as the
person's last sync time. -/
theorem attendancePart_sets (s : TrackerState) (t : ℚ) (pid : String)
    (h : (attendancePart s t pid).2 = true) :
    (attendancePart s t pid).1.last_attendance_time pid = some t := by
  simp only [attendancePart] at h ⊢
  split
  · simp
  · next hdue =>
    rw [if_neg hdue] at h
    cases h

/-- The attendance part for a different person never touches this
person's last sync time. -/
theorem attendancePart_other (s : TrackerState) (t : ℚ) (q pid : String)
    (hq : q ≠ pid) :
    (attendancePart s t q).1.last_attendance_time pid =
      s.last_attendance_time pid := by
  have hpq : pid ≠ q := Ne.symm hq
  simp only [attendancePart]
  split
  · simp [hpq]
  · rfl

/-- Inside the 5-second window after the recorded sync time, the
attendance part does nothing at all. -/
theorem attendancePart_cooldown (s : TrackerState) (t t1 : ℚ)
    (pid : String) (hs : s.last_attendance_time pid = some t1)
    (hle : t ≤ t1 + 5) :
    attendancePart s t pid = (s, false) := by
  have hdue : (decide (t - t1 > 5)) = false := by
    rw [decide_eq_false_iff_not]
    intro hgt
    linarith
  simp [attendancePart, hs, hdue]

/-- A call that performs the attendance sync records its timestamp as the
person's last sync time. -/
theorem process_recognized_face_sets_sync (s : TrackerState) (t : ℚ)
    (pid : String)
    (h : (process_recognized_face s t pid).2.2 = true) :
    (process_recognized_face s t pid).1.last_attendance_time pid = some t :=
  attendancePart_sets (rawLogPart s t pid).1 t pid h

/-- A call for a different person never touches this person's last sync
time. -/
theorem process_recognized_face_other (s : TrackerState) (t : ℚ)
    (q pid : String) (hq : q ≠ pid) :
    (process_recognized_face s t q).1.last_attendance_time pid =
      s.last_attendance_time pid := by
  simp only [process_recognized_face]
  rw [attendancePart_other (rawLogPart s t q).1 t q pid hq]
  rw [rawLogPart_preserves s t q]

/-- Inside the 5-second window after the recorded sync time, a call for
the same person performs no sync and leaves the recorded time
unchanged. -/
theorem process_recognized_face_cooldown (s : TrackerState) (t t1 : ℚ)
    (pid : String) (hs : s.last_attendance_time pid = some t1)
    (hle : t ≤ t1 + 5) :
    (process_recognized_face s t pid).2.2 = false ∧
      (process_recognized_face s t pid).1.last_attendance_time pid =
        some t1 := by
  have h1 : (rawLogPart s t pid).1.last_attendance_time pid = some t1 := by
    rw [rawLogPart_preserves s t pid]
    exact hs
  have h2 := attendancePart_cooldown (rawLogPart s t pid).1 t t1 pid h1 hle
  refine ⟨?_, ?_⟩
  · simp [process_recognized_face, h2]
  · simpa [process_recognized_face, h2] using h1

/-- While the recorded last sync time for `pid` stays within 5 seconds of
every later event for `pid`, no event for `pid` performs a sync. -/
theorem syncCount_zero_of_cooldown (pid : String) (t1 : ℚ) :
    ∀ (events : List (ℚ × String)) (s : TrackerState),
      s.last_attendance_time pid = some t1 →
      (∀ e ∈ events, e.2 = pid → e.1 ≤ t1 + 5) →
      syncCount s pid events = 0 := by
  intro events
  induction events with
  | nil =>
    intro s _ _
    rfl
  | cons e es ih =>
    intro s hs hwin
    simp only [syncCount]
    by_cases hq : e.2 = pid
    · have hle : e.1 ≤ t1 + 5 := hwin e (List.mem_cons_self e es) hq
      rw [hq]
      have hcool := process_recognized_face_cooldown s e.1 t1 pid hs hle
      rw [hcool.1, Bool.false_and]
      rw [ih _ hcool.2 (fun x hx hxp => hwin x (List.mem_cons_of_mem e hx) hxp)]
      rfl
    · have hne : (e.2 == pid) = false := by
        simp [hq]
      rw [hne, Bool.and_false]
      have hpres : (process_recognized_face s e.1 e.2).1.last_attendance_time
          pid = some t1 := by
        rw [process_recognized_face_other s e.1 e.2 pid hq]
        exact hs
      rw [ih _ hpres (fun x hx hxp => hwin x (List.mem_cons_of_mem e hx) hxp)]
      rfl

/-- C5: once a `process_recognized_face` call at time `t1` performs the
attendance sync for a person, no later call for that person at any time
up to `t1 + 5` performs another sync — at most one state-changing
attendance write per 5-second window. -/
theorem C5_sync_cooldown (s : TrackerState) (t1 : ℚ) (pid : String)
    (events : List (ℚ × String))
    (hsync : (process_recognized_face s t1 pid).2.2 = true)
    (hwin : ∀ e ∈ events, e.2 = pid → e.1 ≤ t1 + 5) :
    syncCount (process_recognized_face s t1 pid).1 pid events = 0 :=
  syncCount_zero_of_cooldown pid t1 events _
    (process_recognized_face_sets_sync s t1 pid hsync) hwin

/-- Closed instance of C5: a fresh tracker syncs person p1 at time 100,
and the follow-up call 3 seconds later performs no sync. -/
theorem C5_sync_cooldown_witness :
    syncCount (process_recognized_face initTracker 100 "p1").1 "p1"
      [(103, "p1")] = 0 :=
  C5_sync_cooldown initTracker 100 "p1" [(103, "p1")] rfl
    (by
      intro e he _
      have : e = ((103 : ℚ), "p1") := by simpa using he
      rw [this]
      norm_num)

/-- A call that triggers the unknown-person alert records its timestamp
as the global last alert time. -/
theorem process_unknown_person_sets_alert (s : TrackerState) (t : ℚ)
    (b : Bool) (h : (process_unknown_person s t b).2.1 = true) :
    (process_unknown_person s t b).1.last_unknown_alert_time = t := by
  by_cases hc : t - s.last_unknown_alert_time > 15
  · simp only [process_unknown_person, if_pos hc]
  · simp only [process_unknown_person, if_neg hc] at h
    cases h

/-- Inside the 15-second window after the recorded alert time, a call
triggers no alert and leaves the recorded time unchanged. -/
theorem process_unknown_person_cooldown (s : TrackerState) (t t1 : ℚ)
    (b : Bool) (hs : s.last_unknown_alert_time = t1) (hle : t ≤ t1 + 15) :
    (process_unknown_person s t b).2.1 = false ∧
      (process_unknown_person s t b).1.last_unknown_alert_time = t1 := by
  have hc : ¬ t - s.last_unknown_alert_time > 15 := by
    rw [hs]
    intro hgt
    linarith
  refine ⟨?_, ?_⟩
  · simp [process_unknown_person, if_neg hc]
  · simpa [process_unknown_person, if_neg hc] using hs

/-- While the recorded last alert time stays within 15 seconds of every
later call, no call triggers an alert. -/
theorem alertCount_zero_of_cooldown (t1 : ℚ) :
    ∀ (events : List (ℚ × Bool)) (s : TrackerState),
      s.last_unknown_alert_time = t1 →
      (∀ e ∈ events, e.1 ≤ t1 + 15) →
      alertCount s events = 0 := by
  intro events
  induction events with
  | nil =>
    intro s _ _
    rfl
  | cons e es ih =>
    intro s hs hwin
    simp only [alertCount]
    have hcool := process_unknown_person_cooldown s e.1 t1 e.2 hs
      (hwin e (List.mem_cons_self e es))
    rw [hcool.1]
    rw [ih _ hcool.2 (fun x hx => hwin x (List.mem_cons_of_mem e hx))]
    rfl

/-- C7: once a `process_unknown_person` call at time `t1` triggers the
audible alert, no later call at any time up to `t1 + 15` triggers
another one, however many distinct unknown tracks make those calls — the
cooldown timestamp is a single global scalar. -/
theorem C7_alert_cooldown (s : TrackerState) (t1 : ℚ) (b : Bool)
    (events : List (ℚ × Bool))
    (halert : (process_unknown_person s t1 b).2.1 = true)
    (hwin : ∀ e ∈ events, e.1 ≤ t1 + 15) :
    alertCount (process_unknown_person s t1 b).1 events = 0 :=
  alertCount_zero_of_cooldown t1 events _
    (process_unknown_person_sets_alert s t1 b halert) hwin

/-- Closed instance of C7: a fresh tracker alerts at time 100, and calls
at times 105 and 110 (from other unknown tracks) trigger nothing. -/
theorem C7_alert_cooldown_witness :
    alertCount (process_unknown_person initTracker 100 true).1
      [(105, true), (110, false)] = 0 :=
  C7_alert_cooldown initTracker 100 true [(105, true), (110, false)]
    (by
      have hc : (100 : ℚ) - initTracker.last_unknown_alert_time > 15 := by
        simp only [initTracker]
        norm_num
      simp only [process_unknown_person, if_pos hc])
    (by
      intro e he
      rcases List.mem_cons.mp he with h | h
      · rw [h]
        norm_num
      · have : e = ((110 : ℚ), false) := by simpa using h
        rw [this]
        norm_num)

/-! Daily attendance sync (claims C2, C3, C8). -/

/-- C2: when the person is registered and has no attendance row for
today, a fault-free sync inserts exactly one row with
arrival = leaving = now and status Present, and returns the
LOGIN-labelled message. -/
theorem C2_first_sync_login (pid : String) (db : DBState) (clk : SyncClock)
    (p : PersonRow)
    (hp : db.persons.find? (fun q => q.person_id == pid) = some p)
    (habs : ∀ a ∈ db.attendance, ¬ (a.person_id = pid ∧ a.date = clk.today)) :
    sync_daily_attendance pid db clk none =
      Except.ok ("LOGIN: " ++ clk.current_time,
        { db with attendance := db.attendance ++
            [{ person_id := pid, date := clk.today
               arrival_time := clk.current_time
               leaving_time := clk.current_time
               status := "Present" }] }) := by
  have hfind : db.attendance.find?
      (fun a => a.person_id == pid && a.date == clk.today) = none := by
    rw [List.find?_eq_none]
    intro a ha
    simp only [Bool.and_eq_true, beq_iff_eq, not_and]
    intro h1 h2
    exact habs a ha ⟨h1, h2⟩
  simp only [sync_daily_attendance, hp, hfind]

/-- Closed instance of C2: first sync of the day for a registered
person. -/
theorem C2_first_sync_login_witness :
    sync_daily_attendance "E001"
      { persons := [{ person_id := "E001", name := "Alice"
                      shift_end := "18:00" }]
        attendance := [] }
      { today := "2026-10-12", current_time := "09:00:01", hour := 9 }
      none =
    Except.ok ("LOGIN: " ++ "09:00:01",
      { persons := [{ person_id := "E001", name := "Alice"
                      shift_end := "18:00" }]
        attendance := [] ++
          [{ person_id := "E001", date := "2026-10-12"
             arrival_time := "09:00:01", leaving_time := "09:00:01"
             status := "Present" }] }) :=
  C2_first_sync_login "E001" _ _
    { person_id := "E001", name := "Alice", shift_end := "18:00" }
    (by rfl) (by simp)

/-- C3: when the person is registered and an attendance row for today
exists, a fault-free sync sets that row's leaving_time to now — every
row for (person, today) gets exactly its leaving_time replaced and every
other row is untouched — and the returned message is labelled
LOGOUT UPDATE when the current hour has reached the person's parsed
shift-end hour, Shift Ongoing otherwise. -/
theorem C3_existing_row_sync (pid : String) (db : DBState) (clk : SyncClock)
    (p : PersonRow) (a0 : AttendanceRow)
    (hp : db.persons.find? (fun q => q.person_id == pid) = some p)
    (hmem : a0 ∈ db.attendance) (hid : a0.person_id = pid)
    (hdate : a0.date = clk.today) :
    ∃ msg : String,
      sync_daily_attendance pid db clk none =
        Except.ok (msg,
          { db with attendance := db.attendance.map (fun a =>
              if a.person_id == pid && a.date == clk.today then
                { a with leaving_time := clk.current_time }
              else a) }) ∧
      { a0 with leaving_time := clk.current_time } ∈
        (db.attendance.map (fun a =>
          if a.person_id == pid && a.date == clk.today then
            { a with leaving_time := clk.current_time }
          else a)) ∧
      (clk.hour ≥ parseShiftEndHour p.shift_end →
        msg = "LOGOUT UPDATE: " ++ clk.current_time) ∧
      (clk.hour < parseShiftEndHour p.shift_end →
        msg = "Shift Ongoing (Ends " ++ p.shift_end ++ ")") := by
  have hsome : ∃ b, db.attendance.find?
      (fun a => a.person_id == pid && a.date == clk.today) = some b := by
    cases hf : db.attendance.find?
        (fun a => a.person_id == pid && a.date == clk.today) with
    | some b => exact ⟨b, rfl⟩
    | none =>
      have := List.find?_eq_none.mp hf a0 hmem
      simp [hid, hdate] at this
  obtain ⟨b, hb⟩ := hsome
  have hupd : { a0 with leaving_time := clk.current_time } ∈
      (db.attendance.map (fun a =>
        if a.person_id == pid && a.date == clk.today then
          { a with leaving_time := clk.current_time }
        else a)) := by
    apply List.mem_map.mpr
    exact ⟨a0, hmem, by simp [hid, hdate]⟩
  by_cases hh : clk.hour ≥ parseShiftEndHour p.shift_end
  · refine ⟨"LOGOUT UPDATE: " ++ clk.current_time, ?_, hupd,
      fun _ => rfl, fun hlt => absurd hh (not_le.mpr hlt)⟩
    simp only [sync_daily_attendance, hp, hb]
    rw [if_pos hh]
  · refine ⟨"Shift Ongoing (Ends " ++ p.shift_end ++ ")", ?_, hupd,
      fun hge => absurd hge hh, fun _ => rfl⟩
    simp only [sync_daily_attendance, hp, hb]
    rw [if_neg hh]

/-- Closed instance of C3: second sync of the day at hour 18 against a
shift ending at 18. -/
theorem C3_existing_row_sync_witness :
    ∃ msg : String,
      sync_daily_attendance "E001"
        { persons := [{ person_id := "E001", name := "Alice"
                        shift_end := "18:00" }]
          attendance := [{ person_id := "E001", date := "2026-10-12"
                           arrival_time := "09:00:01"
                           leaving_time := "09:00:01"
                           status := "Present" }] }
        { today := "2026-10-12", current_time := "18:30:00", hour := 18 }
        none =
        Except.ok (msg,
          { persons := [{ person_id := "E001", name := "Alice"
                          shift_end := "18:00" }]
            attendance := [{ person_id := "E001", date := "2026-10-12"
                             arrival_time := "09:00:01"
                             leaving_time := "09:00:01"
                             status := "Present" }].map (fun a =>
              if a.person_id == "E001" && a.date == "2026-10-12" then
                { a with leaving_time := "18:30:00" }
              else a) }) ∧
      ({ person_id := "E001", date := "2026-10-12"
         arrival_time := "09:00:01", leaving_time := "18:30:00"
         status := "Present" } : AttendanceRow) ∈
        ([{ person_id := "E001", date := "2026-10-12"
            arrival_time := "09:00:01", leaving_time := "09:00:01"
            status := "Present" }].map (fun a =>
          if a.person_id == "E001" && a.date == "2026-10-12" then
            { a with leaving_time := "18:30:00" }
          else a)) ∧
      (18 ≥ parseShiftEndHour "18:00" → msg = "LOGOUT UPDATE: " ++ "18:30:00") ∧
      (18 < parseShiftEndHour "18:00" →
        msg = "Shift Ongoing (Ends " ++ "18:00" ++ ")") :=
  C3_existing_row_sync "E001" _ _
    { person_id := "E001", name := "Alice", shift_end := "18:00" }
    { person_id := "E001", date := "2026-10-12"
      arrival_time := "09:00:01", leaving_time := "09:00:01"
      status := "Present" }
    (by rfl) (by simp) (by rfl) (by rfl)

/-- Counterexample to C8 as stated: a database fault while establishing
the connection happens before the `try:` block of
`sync_daily_attendance`, so the `except mysql.connector.Error` clause
does not cover it and the exception propagates to the caller. -/
theorem C8_counterexample :
    (sync_daily_attendance "E001"
      { persons := [{ person_id := "E001", name := "Alice"
                      shift_end := "18:00" }]
        attendance := [] }
      { today := "2026-10-12", current_time := "09:00:01", hour := 9 }
      (some SyncFault.connectFail)).isOk = false := by
  rfl

/-- C8 (amended): every DB error raised after the connection phase — that
is, inside the `try:` block — is caught and converted into an
error-tagged result string, so the sync returns normally; and a caught
query fault yields exactly the DB-Error-tagged message with the store
unchanged. Only a connection-establishment fault escapes. -/
theorem C8_sync_catches_query_faults (pid : String) (db : DBState)
    (clk : SyncClock) (fault : Option SyncFault)
    (h : fault ≠ some SyncFault.connectFail) :
    (∃ msg db2, sync_daily_attendance pid db clk fault =
      Except.ok (msg, db2)) ∧
    (fault = some SyncFault.queryFail →
      sync_daily_attendance pid db clk fault =
        Except.ok ("DB Error: query failed", db)) := by
  cases fault with
  | none =>
    refine ⟨?_, by intro hc; cases hc⟩
    cases hp : db.persons.find? (fun p => p.person_id == pid) with
    | none =>
      simp only [sync_daily_attendance, hp]
      exact ⟨_, _, rfl⟩
    | some p =>
      cases hb : db.attendance.find?
          (fun a => a.person_id == pid && a.date == clk.today) with
      | none =>
        simp only [sync_daily_attendance, hp, hb]
        exact ⟨_, _, rfl⟩
      | some b =>
        simp only [sync_daily_attendance, hp, hb]
        by_cases hh : clk.hour ≥ parseShiftEndHour p.shift_end
        · rw [if_pos hh]
          exact ⟨_, _, rfl⟩
        · rw [if_neg hh]
          exact ⟨_, _, rfl⟩
  | some f =>
    cases f with
    | connectFail => exact absurd rfl h
    | queryFail => exact ⟨⟨_, _, rfl⟩, fun _ => rfl⟩

/-- Closed instance of the amended C8: a query fault during the sync is
caught and returned as a DB-Error string. -/
theorem C8_sync_catches_query_faults_witness :
    (∃ msg db2, sync_daily_attendance "E001"
      { persons := [], attendance := [] }
      { today := "2026-10-12", current_time := "09:00:01", hour := 9 }
      (some SyncFault.queryFail) = Except.ok (msg, db2)) ∧
    (some SyncFault.queryFail = some SyncFault.queryFail →
      sync_daily_attendance "E001"
        { persons := [], attendance := [] }
        { today := "2026-10-12", current_time := "09:00:01", hour := 9 }
        (some SyncFault.queryFail) =
        Except.ok ("DB Error: query failed",
          { persons := [], attendance := [] })) :=
  C8_sync_catches_query_faults "E001" _ _ (some SyncFault.queryFail)
    (by decide)

/-! Face-store removal (claim C9). -/

/-- Counterexample to C9 as stated: with person p1 present in the
registry, a failed persist makes `remove_face_encoding` return false even
though the person_id was present before the call (and the in-memory
removal still happened). -/
theorem C9_counterexample :
    (([("p1", "Alice", (1 : ℚ))] : Registry ℚ).any
      (fun e => e.1 == "p1")) = true ∧
    (remove_face_encoding ([("p1", "Alice", (1 : ℚ))] : Registry ℚ)
      "p1" false).2 = false ∧
    (remove_face_encoding ([("p1", "Alice", (1 : ℚ))] : Registry ℚ)
      "p1" false).1 = [] := by
  refine ⟨rfl, ?_, ?_⟩
  · rfl
  · rfl

/-- C9 (amended): `remove_face_encoding` deletes every entry for the
person_id from the in-memory registry when present (leaving it unchanged
otherwise), and returns true exactly when the person_id was present
before the call AND the persist succeeded — a failed save yields false
even though the removal occurred. -/
theorem C9_remove_semantics {α : Type} (registered_faces : Registry α)
    (person_id : String) (io_ok : Bool) :
    (remove_face_encoding registered_faces person_id io_ok).1 =
      registered_faces.filter (fun e => !(e.1 == person_id)) ∧
    (remove_face_encoding registered_faces person_id io_ok).2 =
      (registered_faces.any (fun e => e.1 == person_id) && io_ok) := by
  by_cases hmem : registered_faces.any (fun e => e.1 == person_id) = true
  · simp only [remove_face_encoding, if_pos hmem, hmem, Bool.true_and]
    exact ⟨rfl, rfl⟩
  · have hall : ∀ e ∈ registered_faces, (e.1 == person_id) = false := by
      intro e he
      rcases Bool.eq_false_or_eq_true (e.1 == person_id) with ht | hf
      · exact absurd (List.any_eq_true.mpr ⟨e, he, ht⟩) hmem
      · exact hf
    have hfilter : registered_faces.filter
        (fun e => !(e.1 == person_id)) = registered_faces := by
      apply List.filter_eq_self.mpr
      intro e he
      rw [hall e he]
      rfl
    rw [Bool.not_eq_true] at hmem
    simp only [remove_face_encoding, hmem, Bool.false_and]
    rw [hfilter]
    exact ⟨rfl, rfl⟩

end AttendanceSys
